import Mathlib

/-!
# Shallow embedding of the VLR match-scraper extraction engine (`src/main.py`)

HTML documents are represented by the values the source's CSS-selector queries
produce (element texts, attribute strings, child element lists, in document
order); network fetches are parameters (`Except` / `Option` results standing
for the body of a successful response or the failure of the request).
Python exceptions are modelled with `Except`, Python `str` with `String`
(operations implemented structurally over `String.data`), Python floats with
`ℚ` (stat cells only ever hold decimal literals), Python ints with `ℤ`.
-/

namespace VLR

/-! ## Python string primitives used by the scraper -/

/-- Python `str.strip()` (used via `get_text(strip=True)` and `.strip()`):
drops leading and trailing whitespace. -/
def pyStrip (s : String) : String :=
  String.mk (((s.data.dropWhile Char.isWhitespace).reverse.dropWhile
    Char.isWhitespace).reverse)

/-- Python `str.replace("%", "")`: removes every occurrence of a single
character. -/
def removeChar (t : Char) (s : String) : String :=
  String.mk (s.data.filter (fun c => !(c == t)))

/-- ASCII lower-casing of one character (the tokens compared by the scraper,
`"live"` / `"all maps"`, are ASCII). -/
def lowerChar (c : Char) : Char :=
  if 'A' ≤ c ∧ c ≤ 'Z' then Char.ofNat (c.toNat + 32) else c

/-- Python `str.lower()` on the ASCII texts the scraper compares. -/
def pyLower (s : String) : String := String.mk (s.data.map lowerChar)

/-- Python `s.startswith(pre)`. -/
def pyStartsWith (s pre : String) : Bool := pre.data.isPrefixOf s.data

/-- Occurrence of `needle` as a contiguous sublist of `hay`. -/
def listInfix (needle : List Char) : List Char → Bool
  | [] => needle.isEmpty
  | c :: rest => needle.isPrefixOf (c :: rest) || listInfix needle rest

/-- Python `needle in hay` on strings. -/
def pyContains (hay needle : String) : Bool := listInfix needle.data hay.data

/-! ## Regex searches used by the scraper

`re.search(r'<literal>(\d+)', href)` and `re.search(r'/(\d+)/', href)`:
scan positions left to right; a position matches when the literal part
matches there and at least one digit follows; the captured group is the
maximal digit run (for `/(\d+)/`, the run must be followed by `'/'` —
backtracking cannot help since a shortened run ends at a digit). -/

/-- `re.search` for `<pat>(\d+)`; returns capture group 1. -/
def searchPrefixedId (pat : List Char) : List Char → Option String
  | [] => none
  | c :: rest =>
    let here :=
      if pat.isPrefixOf (c :: rest) then
        let ds := ((c :: rest).drop pat.length).takeWhile Char.isDigit
        if ds.isEmpty then none else some (String.mk ds)
      else none
    match here with
    | some r => some r
    | none => searchPrefixedId pat rest

/-- `re.search(r'/player/(\d+)', href)`. -/
def searchPlayerId (href : String) : Option String :=
  searchPrefixedId "/player/".data href.data

/-- `re.search(r'/team/(\d+)', href)`. -/
def searchTeamId (href : String) : Option String :=
  searchPrefixedId "/team/".data href.data

/-- `re.search(r'/(\d+)/', href)`; returns capture group 1. -/
def searchSlashNumSlash : List Char → Option String
  | [] => none
  | c :: rest =>
    let here :=
      if c = '/' then
        let ds := rest.takeWhile Char.isDigit
        if ds.isEmpty then none
        else if (rest.drop ds.length).head? = some '/' then some (String.mk ds)
        else none
      else none
    match here with
    | some r => some r
    | none => searchSlashNumSlash rest

/-! ## Python numeric conversion (`float` / `int`) -/

/-- Value of a digit run. -/
def digitsToNat (cs : List Char) : Nat :=
  cs.foldl (fun a c => a * 10 + (c.toNat - 48)) 0

/-- Splitting a character list at `'.'` occurrences. -/
def splitDot : List Char → List (List Char)
  | [] => [[]]
  | c :: rest =>
    let r := splitDot rest
    if c = '.' then [] :: r
    else
      match r with
      | [] => [[c]]
      | h :: t => (c :: h) :: t

/-- Unsigned part of Python `float(text)` on the decimal literals that occur
in stat cells: digits with at most one decimal point, at least one digit
(exponents, underscores, `inf` / `nan` never occur in stat cells and are
not modelled).  `none` models a `ValueError`. -/
def parseUnsignedDecimal (cs : List Char) : Option ℚ :=
  match splitDot cs with
  | [a] => if a ≠ [] ∧ a.all Char.isDigit then some ((digitsToNat a : ℚ)) else none
  | [a, b] =>
    if (a ++ b) ≠ [] ∧ (a ++ b).all Char.isDigit then
      some ((digitsToNat a : ℚ) + (digitsToNat b : ℚ) / ((10 : ℚ) ^ b.length))
    else none
  | _ => none

/-- Python `float(text)` (on already-stripped text): optional ASCII sign,
then an unsigned decimal literal.  The unicode minus sign `'−'` is not an
ASCII `'-'` and makes the conversion fail, as in Python. -/
def pythonFloat (s : String) : Option ℚ :=
  match s.data with
  | '-' :: rest => (parseUnsignedDecimal rest).map (fun q => -q)
  | '+' :: rest => parseUnsignedDecimal rest
  | cs => parseUnsignedDecimal cs

/-- Python `int(x)` applied to a float: truncation toward zero. -/
def truncQ (q : ℚ) : ℤ := if 0 ≤ q then ⌊q⌋ else ⌈q⌉

/-! ## `parse_player_row` (src/main.py lines 394-485) -/

/-- The eleven numeric stat fields of a player row (`stats` dict,
lines 436-448); `rating` is a Python float, the rest Python ints. -/
structure Stats where
  rating : ℚ
  acs : ℤ
  kills : ℤ
  deaths : ℤ
  assists : ℤ
  kast : ℤ
  adr : ℤ
  headshot_percent : ℤ
  first_kills : ℤ
  first_deaths : ℤ
  first_kills_diff : ℤ
deriving Repr, DecidableEq

/-- The default (all-zero) stat dict, lines 436-448. -/
def defaultStats : Stats := ⟨0, 0, 0, 0, 0, 0, 0, 0, 0, 0, 0⟩

/-- `stat_keys`, line 451. -/
def statKeys : List String :=
  ["rating", "acs", "kills", "deaths", "assists", "kd_diff", "kast", "adr",
   "headshot_percent", "first_kills", "first_deaths", "first_kills_diff"]

/-- `stats[key] = v` for the integer keys. -/
def setIntField (st : Stats) (key : String) (v : ℤ) : Stats :=
  if key = "acs" then { st with acs := v }
  else if key = "kills" then { st with kills := v }
  else if key = "deaths" then { st with deaths := v }
  else if key = "assists" then { st with assists := v }
  else if key = "kast" then { st with kast := v }
  else if key = "adr" then { st with adr := v }
  else if key = "headshot_percent" then { st with headshot_percent := v }
  else if key = "first_kills" then { st with first_kills := v }
  else if key = "first_deaths" then { st with first_deaths := v }
  else if key = "first_kills_diff" then { st with first_kills_diff := v }
  else st

/-- One iteration of the stat-cell loop, lines 453-473: `kd_diff` is
skipped; `%` signs are removed and the text stripped; an empty text assigns
zero; a `ValueError` / `TypeError` is caught by `pass`, leaving the value
unchanged (its default). -/
def applyStatCell (st : Stats) (key text : String) : Stats :=
  if key = "kd_diff" then st
  else
    let t := pyStrip (removeChar '%' text)
    if key = "rating" then
      if t = "" then { st with rating := 0 }
      else
        match pythonFloat t with
        | some q => { st with rating := q }
        | none => st
    else
      if t = "" then setIntField st key 0
      else
        match pythonFloat t with
        | some q => setIntField st key (truncQ q)
        | none => st

/-- The stat-cell loop, lines 450-473: `enumerate(stat_cells)` indexed into
`stat_keys`, breaking past the last key. -/
def parseStats (cells : List String) : Stats :=
  (cells.zip statKeys).foldl (fun st p => applyStatCell st p.2 p.1) defaultStats

/-- An agent icon `<img>` under `.mod-agent` (attributes default `""`). -/
structure AgentImg where
  title : String
  img : String
deriving Repr, DecidableEq

/-- The selector results `parse_player_row` reads from one `<tr>`:
`.text-of` text (`none` = element absent), the first `<a>` (`hasLink`) and
its `href` attribute, the first `<img>`'s `src` attribute (`none` = no
`<img>` element), the `.mod-agent img` list, and the
`td.mod-stat span.mod-both` texts in document order. -/
structure Row where
  nameText : Option String
  hasLink : Bool
  linkHref : String
  imgSrc : Option String
  agentImgs : List AgentImg
  statCells : List String
deriving Repr, DecidableEq

/-- One entry of the `teams` list built by `get_match` (lines 80-85). -/
structure TeamEntry where
  name : String
  score : String
  img : String
  id : String
deriving Repr, DecidableEq

/-- The player dict returned by `parse_player_row` (lines 475-482). -/
structure PlayerOut where
  id : String
  name : String
  team : String
  agents : List AgentImg
  img : String
  stats : Stats
deriving Repr, DecidableEq

/-- URL fix-up `if u and not u.startswith("http"): u = "https:"+u if
u.startswith("//") else "https://www.vlr.gg"+u` (lines 78-79, 421-422). -/
def fixUrlTwoBranch (u : String) : String :=
  if u ≠ "" ∧ pyStartsWith u "http" = false then
    if pyStartsWith u "//" then "https:" ++ u else "https://www.vlr.gg" ++ u
  else u

/-- `parse_player_row(row, teams, table_index)`, lines 394-485.  The
enclosing `try/except` only fires on the guarded lookups modelled here, so
the sole `None` outcome is the missing `.text-of` element (line 398-400). -/
def parsePlayerRow (row : Row) (teams : List TeamEntry) (tableIndex : Nat) :
    Option PlayerOut :=
  match row.nameText with
  | none => none
  | some playerName =>
    let teamName :=
      match teams.get? tableIndex with
      | some t => t.name
      | none => "Unknown"
    let playerId := if row.hasLink then (searchPlayerId row.linkHref).getD "" else ""
    let playerImg :=
      if row.hasLink then
        match row.imgSrc with
        | some src => fixUrlTwoBranch src
        | none => ""
      else ""
    let agents := row.agentImgs.filter (fun a => !(a.title == ""))
    some { id := playerId, name := playerName, team := teamName,
           agents := agents, img := playerImg, stats := parseStats row.statCells }

/-! ## `fetch_player_image` (src/main.py lines 241-292) -/

/-- An `<img>` element as read by the scraper: the `src`, `data-src` and
`data-lazy-src` attributes, each defaulting to `""` via `get(attr, "")`. -/
structure ImgEl where
  src : String
  dataSrc : String
  dataLazySrc : String
deriving Repr, DecidableEq

/-- `img.get("src","") or img.get("data-src","") or img.get("data-lazy-src","")`
— Python `or` takes the first non-empty string. -/
def imgSrcOf (e : ImgEl) : String :=
  if e.src ≠ "" then e.src
  else if e.dataSrc ≠ "" then e.dataSrc
  else e.dataLazySrc

/-- The hardcoded placeholder sentinel image path (lines 270, 279, 346). -/
def placeholder : String := "/img/base/ph/sil.png"

/-- The selector results `fetch_player_image` reads from a player page:
all `.player-header img` elements and all
`img[class*='player'], img[class*='photo'], img[class*='avatar']` elements,
in document order. -/
structure PlayerDoc where
  headerImgs : List ImgEl
  photoImgs : List ImgEl
deriving Repr, DecidableEq

/-- Try 1 (lines 261-263): the first `.player-header img`, no placeholder
check. -/
def tryHeaderFirst (d : PlayerDoc) : String :=
  match d.headerImgs.head? with
  | some e => imgSrcOf e
  | none => ""

/-- Try 2 (lines 266-272): first `.player-header img` whose source is
non-empty and not the placeholder. -/
def tryHeaderSkip (d : PlayerDoc) : String :=
  ((d.headerImgs.map imgSrcOf).filter
    (fun s => !(s == "") && !(s == placeholder))).headD ""

/-- Try 3 (lines 275-281): first player/photo/avatar-classed `img` whose
source is non-empty and not the placeholder. -/
def tryPhotoSkip (d : PlayerDoc) : String :=
  ((d.photoImgs.map imgSrcOf).filter
    (fun s => !(s == "") && !(s == placeholder))).headD ""

/-- The URL fix-up with fall-through at the end of `fetch_player_image`
(lines 284-292): `//` → `https:` prefix, `/` → site origin prefix, `http`
→ unchanged; anything else (a bare relative path) falls through to the
final `return ""`. -/
def fixImgUrl (s : String) : String :=
  if s ≠ "" then
    if pyStartsWith s "//" then "https:" ++ s
    else if pyStartsWith s "/" then "https://www.vlr.gg" ++ s
    else if pyStartsWith s "http" then s
    else ""
  else ""

/-- `fetch_player_image(player_id)`, lines 241-292.  `fetched = none` models
the `httpx.HTTPError` branch (line 252-253). -/
def fetchPlayerImage (playerId : String) (fetched : Option PlayerDoc) : String :=
  if playerId = "" then ""
  else
    match fetched with
    | none => ""
    | some d =>
      let u1 := tryHeaderFirst d
      let u :=
        if u1 ≠ "" then u1
        else
          let u2 := tryHeaderSkip d
          if u2 ≠ "" then u2 else tryPhotoSkip d
      fixImgUrl u

/-! ## `fetch_team_roster` (src/main.py lines 295-391) -/

/-- One roster entry dict `{name, img, id}` (lines 368-372). -/
structure RosterPlayer where
  name : String
  img : String
  id : String
deriving Repr, DecidableEq

instance : Inhabited RosterPlayer := ⟨⟨"", "", ""⟩⟩

/-- The selector results `fetch_team_roster` reads from one
`.team-roster-item`: the `.team-roster-item-name-alias` text (`none` =
absent), the first `<a>` and its `href`, the `<img>` descendants in document
order (Try 1 takes the head, Try 3 scans all), the `<img>` descendants of
the first `<a>` (Try 2 takes the head), and the URL a
`background-image` style attribute would yield under the
`url\(["']?([^"']+)["']?\)` regex (`none` = no styled element or no regex
match). -/
structure RosterItem where
  nameAlias : Option String
  hasLink : Bool
  linkHref : String
  allImgs : List ImgEl
  linkImgs : List ImgEl
  styleUrl : Option String
deriving Repr, DecidableEq

/-- The roster URL fix-up (lines 360-366): `//` → `https:`, `/` → origin,
not `http` → origin (bare relative paths are prefixed here, unlike in
`fetch_player_image`). -/
def fixRosterUrl (u : String) : String :=
  if u ≠ "" then
    if pyStartsWith u "//" then "https:" ++ u
    else if pyStartsWith u "/" then "https://www.vlr.gg" ++ u
    else if pyStartsWith u "http" = false then "https://www.vlr.gg" ++ u
    else u
  else u

/-- Try 1 of the roster-item image resolution (lines 330-333): the first
`<img>` in the item, no placeholder check. -/
def rosterTryFirstImg (item : RosterItem) : String :=
  match item.allImgs.head? with
  | some e => imgSrcOf e
  | none => ""

/-- Try 2 (lines 336-339): the first `<img>` under the item's `<a>`, only
when a link exists, no placeholder check.  (In the source this runs only
when `player_img` is still empty, so assigning nothing and keeping the
empty `player_img` coincide.) -/
def rosterTryLinkImg (item : RosterItem) : String :=
  if item.hasLink then
    match item.linkImgs.head? with
    | some e => imgSrcOf e
    | none => ""
  else ""

/-- Try 3 (lines 342-348): any `<img>` in the item whose source is
non-empty and not the placeholder — the only roster try with a placeholder
check. -/
def rosterTrySkip (item : RosterItem) : String :=
  ((item.allImgs.map imgSrcOf).filter
    (fun s => !(s == "") && !(s == placeholder))).headD ""

/-- Try 4 (lines 351-357): the `background-image` style URL, no
placeholder check. -/
def rosterTryStyle (item : RosterItem) : String := item.styleUrl.getD ""

/-- First pass over one `.team-roster-item` (lines 313-372): an item
contributes iff its name-alias element exists with non-empty text; the
image is resolved by Try 1, then (still empty) Try 2, then Try 3, then
Try 4, and finally URL-fixed. -/
def itemPlayer (item : RosterItem) : Option RosterPlayer :=
  match item.nameAlias with
  | none => none
  | some nm =>
    if nm = "" then none
    else
      let pid := if item.hasLink then (searchPlayerId item.linkHref).getD "" else ""
      let img0 := rosterTryFirstImg item
      let img1 := if img0 = "" then rosterTryLinkImg item else img0
      let img2 := if img1 = "" then rosterTrySkip item else img1
      let img3 := if img2 = "" then rosterTryStyle item else img2
      some ⟨nm, fixRosterUrl img3, pid⟩

/-- First pass of `fetch_team_roster` (lines 311-372): at most the first
five `.team-roster-item`s are considered. -/
def firstPass (items : List RosterItem) : List RosterPlayer :=
  (items.take 5).filterMap itemPlayer

/-- `task_indices` (lines 377-382): positions of the players with no image
but a player id, in list order. -/
def taskIndices (ps : List RosterPlayer) : List Nat :=
  (List.range ps.length).filter
    (fun i => ((ps.getD i default).img == "") && !((ps.getD i default).id == ""))

/-- Writing an image into one roster slot
(`player_data_list[i]["img"] = result`, line 389). -/
def updImg : List RosterPlayer → Nat → String → List RosterPlayer
  | [], _, _ => []
  | p :: ps, 0, v => { p with img := v } :: ps
  | p :: ps, n + 1, v => p :: updImg ps n v

/-- Fan-in of one gathered result (lines 387-389):
`if not isinstance(result, Exception) and result:` — only a non-exception,
non-empty string updates the slot. -/
def applyResult (acc : List RosterPlayer) (i : Nat) (res : Except Unit String) :
    List RosterPlayer :=
  match res with
  | .ok r => if r ≠ "" then updImg acc i r else acc
  | .error _ => acc

/-- The `asyncio.gather` fan-out/fan-in (lines 374-389), parameterised by
the order in which the per-slot write-backs are applied.  `asyncio.gather`
returns results in task order; `fetcher` maps a player id to the task's
outcome (`.error` models an exception captured by `return_exceptions=True`).
The fetch argument is always the id held in the pristine first-pass list. -/
def enrichWith (ps : List RosterPlayer) (fetcher : String → Except Unit String)
    (order : List Nat) : List RosterPlayer :=
  order.foldl (fun acc i => applyResult acc i (fetcher ((ps.getD i default).id))) ps

/-- `fetch_team_roster(team_id)`, lines 295-391, given the fetched team page
(`none` models the `httpx.HTTPError` branch returning `[]`) and the
secondary image fetcher.  Write-backs are applied in task order. -/
def fetchTeamRoster (fetched : Option (List RosterItem))
    (fetcher : String → Except Unit String) : List RosterPlayer :=
  match fetched with
  | none => []
  | some items =>
    let ps := firstPass items
    enrichWith ps fetcher (taskIndices ps)

/-! ## `get_match` (src/main.py lines 46-238) -/

/-- The `.match-header-event` element: texts of its `div:nth-child(1)` and
`div:nth-child(2)` children (`none` = that child is absent, in which case
`select_one` returns `None` and the chained `get_text` raises). -/
structure EventEl where
  div1 : Option String
  div2 : Option String
deriving Repr, DecidableEq

/-- The event dict (lines 89-95). -/
structure EventOut where
  series : String
  stage : String
  id : String
  img : Option String
  status : Option String
deriving Repr, DecidableEq

/-- One `.vm-stats-game` map container: the `.map div:first-child` text
(`none` = absent → `"Unknown"`), the `.score` texts, and the rows of each
`table.wf-table-inset` (`tbody tr`), all in document order. -/
structure MapContainer where
  mapNameEl : Option String
  scoreTexts : List String
  tables : List (List Row)
deriving Repr, DecidableEq

/-- The selector results `get_match` reads from a match page, in document
order per selector. -/
structure MatchDoc where
  teamNames : List String
  scoreTexts : List String
  logoSrcs : List String
  teamLinkHrefs : List String
  eventEl : Option EventEl
  mapContainers : List MapContainer
  vsPlayers : List String
deriving Repr, DecidableEq

/-- A `{name, score}` entry of a map's team list. -/
structure MapTeamScore where
  name : String
  score : String
deriving Repr, DecidableEq

/-- One entry of the response's `maps` list. -/
structure MapOut where
  map : String
  teams : List MapTeamScore
  players : List PlayerOut
deriving Repr, DecidableEq

instance : Inhabited MapOut := ⟨⟨"", [], []⟩⟩

/-- The JSON body returned by `get_match` (lines 232-238). -/
structure MatchResponse where
  teams : List TeamEntry
  event : EventOut
  map_count : Nat
  maps : List MapOut
  is_upcoming : Bool
deriving Repr, DecidableEq

/-- `team_ids` (lines 67-72): `/team/(\d+)` searched in the first two
`.match-header-link` hrefs, `""` when absent. -/
def teamIds (doc : MatchDoc) : List String :=
  (doc.teamLinkHrefs.take 2).map (fun h => (searchTeamId h).getD "")

/-- The `teams` list (lines 74-85). -/
def buildTeams (doc : MatchDoc) : List TeamEntry :=
  let tids := teamIds doc
  (doc.teamNames.take 2).enum.map (fun p =>
    { name := p.2
      score := doc.scoreTexts.getD p.1 "0"
      img := fixUrlTwoBranch (doc.logoSrcs.getD p.1 "")
      id := tids.getD p.1 "" })

/-- Event extraction (lines 88-95): when `.match-header-event` is absent
both fields default to `""`; when it is present, a missing `div:nth-child`
makes `select_one(...)` return `None` and the chained
`.get_text(strip=True)` raise `AttributeError` — modelled as `.error`. -/
def extractEvent : Option EventEl → Except Unit EventOut
  | none => .ok ⟨"", "", "", none, none⟩
  | some ev =>
    match ev.div1 with
    | none => .error ()
    | some s1 =>
      match ev.div2 with
      | none => .error ()
      | some s2 => .ok ⟨s1, s2, "", none, none⟩

/-- Method 2 of the upcoming-match fallback (lines 113-120): inline
`.match-header-vs-player` nodes assigned to the two teams by even/odd
position (skipping empty names but keeping the positional parity of the
full node list). -/
def splitVs (l : List String) : List RosterPlayer × List RosterPlayer :=
  (l.enum.filterMap (fun p =>
      if p.2 ≠ "" ∧ p.1 % 2 = 0 then some ⟨p.2, "", ""⟩ else none),
   l.enum.filterMap (fun p =>
      if p.2 ≠ "" ∧ p.1 % 2 = 1 then some ⟨p.2, "", ""⟩ else none))

/-- Method 3 of the upcoming-match fallback (lines 122-126): each team's
roster page is fetched only when the inline method yielded no players for
that team and a team id is available; `rfetch` stands for
`fetch_team_roster` with its internal error handling already absorbed. -/
def upcomingRosters (doc : MatchDoc) (rfetch : String → List RosterPlayer) :
    List RosterPlayer × List RosterPlayer :=
  let inline := splitVs doc.vsPlayers
  let tids := teamIds doc
  let t1 :=
    if inline.1 = [] ∧ 1 ≤ tids.length ∧ tids.getD 0 "" ≠ "" then
      rfetch (tids.getD 0 "")
    else inline.1
  let t2 :=
    if inline.2 = [] ∧ 2 ≤ tids.length ∧ tids.getD 1 "" ≠ "" then
      rfetch (tids.getD 1 "")
    else inline.2
  (t1, t2)

/-- A roster entry widened to a placeholder player dict with zeroed stats
(lines 129-187). -/
def rosterToPlayer (teamName : String) (rp : RosterPlayer) : PlayerOut :=
  { id := rp.id, name := rp.name, team := teamName, agents := [],
    img := rp.img, stats := defaultStats }

/-- The placeholder-map list for an upcoming match (lines 128-194): up to
five players per roster, team labels from the parsed teams with
`"Team 1"` / `"Team 2"` fallbacks; the `"Roster"` map is emitted only when
some player was found. -/
def upcomingMaps (doc : MatchDoc) (teams : List TeamEntry)
    (rfetch : String → List RosterPlayer) : List MapOut :=
  let rosters := upcomingRosters doc rfetch
  let t1name := match teams.get? 0 with | some t => t.name | none => "Team 1"
  let t2name := match teams.get? 1 with | some t => t.name | none => "Team 2"
  let players :=
    (rosters.1.take 5).map (rosterToPlayer t1name) ++
    (rosters.2.take 5).map (rosterToPlayer t2name)
  if players ≠ [] then
    [{ map := "Roster",
       teams := teams.map (fun t => ⟨t.name, "0"⟩),
       players := players }]
  else []

/-- The name shown for one map container (lines 198-202): `"Unknown"` when
the name element is absent, and any casing of `"all maps"` normalised to
`"All Maps"`. -/
def mapNameOf (mc : MapContainer) : String :=
  let raw := mc.mapNameEl.getD "Unknown"
  if pyLower raw = "all maps" then "All Maps" else raw

/-- One completed-map block (lines 197-230). -/
def buildMap (teams : List TeamEntry) (mc : MapContainer) : MapOut :=
  let teamNames := teams.map (fun t => t.name)
  let mapTeams := (mc.scoreTexts.take 2).enum.map (fun p =>
    MapTeamScore.mk (teamNames.getD p.1 ("Team " ++ toString (p.1 + 1))) p.2)
  let players := (mc.tables.enum).foldl (fun acc p =>
    acc ++ p.2.filterMap (fun r => parsePlayerRow r teams p.1)) []
  { map := mapNameOf mc, teams := mapTeams, players := players }

/-- The error surfaced by the `/match/{id}` endpoint: `notFound` is the
`HTTPException(404)` raised on an `httpx.HTTPError` (lines 52-56);
`runtime` is an uncaught Python exception escaping the handler. -/
inductive ApiErr where
  | notFound
  | runtime
deriving Repr, DecidableEq

/-- `get_match(match_id)`, lines 46-238.  `fetched` is the outcome of the
upstream document fetch; `rfetch` is `fetch_team_roster` for the
upcoming-match fallback. -/
def getMatch (fetched : Except Unit MatchDoc)
    (rfetch : String → List RosterPlayer) : Except ApiErr MatchResponse :=
  match fetched with
  | .error _ => .error .notFound
  | .ok doc =>
    let teams := buildTeams doc
    match extractEvent doc.eventEl with
    | .error _ => .error .runtime
    | .ok ev =>
      let isUpcoming := doc.mapContainers.isEmpty
      let maps :=
        if isUpcoming then upcomingMaps doc teams rfetch
        else doc.mapContainers.map (buildMap teams)
      .ok { teams := teams
            event := ev
            map_count := (maps.filter
              (fun m => !(m.map == "All Maps") && !(m.map == "Roster"))).length
            maps := maps
            is_upcoming := isUpcoming }

/-! ## `get_live_matches` (src/main.py lines 756-815) -/

/-- One `.match-item-vs-team`: its `.match-item-vs-team-name` and
`.match-item-vs-team-score` texts (`none` = element absent). -/
structure VsTeam where
  nameEl : Option String
  scoreEl : Option String
deriving Repr, DecidableEq

/-- The selector results of one `.wf-module-item.match-item`: the
`.match-item-eta` text (`none` = element absent), the item's `href`, the
`.match-item-vs-team` children and the `.match-item-event` text. -/
structure FrontItem where
  etaText : Option String
  href : String
  vsTeams : List VsTeam
  eventText : Option String
deriving Repr, DecidableEq

/-- A `{name, score}` team reference of a live-match record. -/
structure TeamRef where
  name : String
  score : String
deriving Repr, DecidableEq

/-- One entry of the `live_matches` response (lines 807-813). -/
structure LiveRec where
  id : String
  team1 : TeamRef
  team2 : TeamRef
  event : String
  status : String
deriving Repr, DecidableEq

/-- Live classification (lines 777-778): an item is live iff its
`.match-item-eta` element exists and its lowercased text contains
`"live"`; an absent indicator yields `False`. -/
def isLive (item : FrontItem) : Bool :=
  match item.etaText with
  | none => false
  | some t => pyContains (pyLower t) "live"

/-- The record one front-page item contributes (lines 780-813): skipped
when not live, when no `/(\d+)/` match id is found, or when the item does
not have exactly two vs-team entries. -/
def buildLive (item : FrontItem) : Option LiveRec :=
  if isLive item then
    let mid := (searchSlashNumSlash item.href.data).getD ""
    let trs := item.vsTeams.map (fun v => TeamRef.mk (v.nameEl.getD "") (v.scoreEl.getD "0"))
    if mid ≠ "" ∧ trs.length = 2 then
      some ⟨mid, trs.getD 0 ⟨"", ""⟩, trs.getD 1 ⟨"", ""⟩, item.eventText.getD "", "LIVE"⟩
    else none
  else none

/-- `get_live_matches()`, lines 756-815: a fetch failure raises
`HTTPException(500)` (modelled `.error`); otherwise the live records are
collected over the `.wf-module-item.match-item` list in document order. -/
def getLiveMatches (fetched : Option (List FrontItem)) :
    Except Unit (List LiveRec) :=
  match fetched with
  | none => .error ()
  | some items => .ok (items.filterMap buildLive)

/-! ## Statement helpers and concrete documents used by the development -/

/-- The effect of one gathered fetch outcome on its own slot (lines
387-389): a non-exception, non-empty result replaces the image, anything
else leaves the slot unchanged. -/
def applySlot (p : RosterPlayer) (res : Except Unit String) : RosterPlayer :=
  match res with
  | .ok r => if r ≠ "" then { p with img := r } else p
  | .error _ => p

/-- The fan-in fold of `enrichWith`, abstracted over the per-index
outcomes. -/
def foldResults (res : Nat → Except Unit String) (ixs : List Nat)
    (acc : List RosterPlayer) : List RosterPlayer :=
  ixs.foldl (fun a i => applyResult a i (res i)) acc

/-- A stat-cell text whose stripped, `%`-less form is non-empty yet fails
Python `float` conversion. -/
def unparsableCell (t : String) : Prop :=
  pyStrip (removeChar '%' t) ≠ "" ∧ pythonFloat (pyStrip (removeChar '%' t)) = none

/-- A match page whose only completed map block is named `"TBD"`. -/
def tbdDoc : MatchDoc :=
  ⟨["A", "B"], [], [], [], none, [⟨some "TBD", [], []⟩], []⟩

/-- A match page whose `.match-header-event` element exists but has no
child `div` elements. -/
def badEventDoc : MatchDoc :=
  ⟨[], [], [], [], some ⟨none, none⟩, [⟨some "Ascent", [], []⟩], []⟩

/-- An upcoming match page with a single inline roster-preview node (so
method (a) yields a team-1 player and nothing for team 2) and team links
for both teams. -/
def mergeDoc : MatchDoc :=
  ⟨["Alpha", "Beta"], [], [], ["/team/1/alpha", "/team/2/beta"], none, [], ["p1"]⟩

/-- The roster fetcher used with `mergeDoc`: only team `"2"` has a roster
page with a player. -/
def mergeFetch : String → List RosterPlayer :=
  fun tid => if tid = "2" then [⟨"q1", "", ""⟩] else []

/-- A team page with two roster items, both without an image and with
player ids. -/
def twoItems : List RosterItem :=
  [⟨some "a", true, "/player/1/a", [], [], none⟩,
   ⟨some "b", true, "/player/2/b", [], [], none⟩]

/-! ## Helper lemmas -/

theorem pyStartsWith_https_append (s : String) :
    pyStartsWith ("https:" ++ s) "http" = true := by
  unfold pyStartsWith
  rw [String.data_append, List.isPrefixOf_iff_prefix]
  exact (show "http".data <+: "https:".data from ⟨['s', ':'], by decide⟩).trans
    (List.prefix_append _ _)

theorem pyStartsWith_vlr_append (s : String) :
    pyStartsWith ("https://www.vlr.gg" ++ s) "http" = true := by
  unfold pyStartsWith
  rw [String.data_append, List.isPrefixOf_iff_prefix]
  exact (show "http".data <+: "https://www.vlr.gg".data from
    ⟨"s://www.vlr.gg".data, by decide⟩).trans (List.prefix_append _ _)

theorem fixImgUrl_empty_or_http (s : String) :
    fixImgUrl s = "" ∨ pyStartsWith (fixImgUrl s) "http" = true := by
  unfold fixImgUrl
  split_ifs with h1 h2 h3 h4
  · exact Or.inr (pyStartsWith_https_append s)
  · exact Or.inr (pyStartsWith_vlr_append s)
  · exact Or.inr h4
  · exact Or.inl rfl
  · exact Or.inl rfl

theorem headD_filter_satisfies (p : String → Bool) (l : List String) (d : String) :
    (l.filter p).headD d = d ∨ p ((l.filter p).headD d) = true := by
  cases h : l.filter p with
  | nil => exact Or.inl rfl
  | cons a t =>
    refine Or.inr ?_
    have ha : a ∈ l.filter p := h ▸ List.mem_cons_self a t
    simpa using (List.mem_filter.mp ha).2

theorem skip_strategy_ne_placeholder (imgs : List ImgEl) :
    ((imgs.map imgSrcOf).filter
      (fun s => !(s == "") && !(s == placeholder))).headD "" ≠ placeholder := by
  rcases headD_filter_satisfies (fun s => !(s == "") && !(s == placeholder))
      (imgs.map imgSrcOf) "" with h | h
  · rw [h]; decide
  · intro hc
    rw [hc] at h
    simp at h

/-! ## Claims -/

/-- C10: for every avatar lookup, `fetch_player_image` returns either the
empty string or an absolute URL beginning with `"http"`; in particular a
discovered image source that is non-empty but starts with none of `"//"`,
`"/"`, `"http"` (a bare relative path) is mapped to the empty string by the
final URL fix-up rather than passed through. -/
theorem playerImage_absolute_or_empty :
    (∀ pid fd, fetchPlayerImage pid fd = "" ∨
      pyStartsWith (fetchPlayerImage pid fd) "http" = true) ∧
    (∀ s, s ≠ "" → pyStartsWith s "//" = false → pyStartsWith s "/" = false →
      pyStartsWith s "http" = false → fixImgUrl s = "") := by
  constructor
  · intro pid fd
    unfold fetchPlayerImage
    split_ifs with h1
    · exact Or.inl rfl
    · cases fd with
      | none => exact Or.inl rfl
      | some d => exact fixImgUrl_empty_or_http _
  · intro s h1 h2 h3 h4
    unfold fixImgUrl
    rw [if_pos h1, h2, h3, h4]
    rfl

/-- C10 witness: a bare relative path is not passed through. -/
theorem playerImage_absolute_or_empty_witness : fixImgUrl "img/foo.png" = "" :=
  playerImage_absolute_or_empty.2 "img/foo.png" (by decide) (by decide)
    (by decide) (by decide)

/-- C5 counterexample: when the FIRST `.player-header img` carries the
placeholder sentinel as its `src`, Try 1 (which has no placeholder check)
accepts it, so `fetch_player_image` returns the absolutised placeholder
path instead of skipping it — the claim says placeholder sentinels are
skipped. -/
theorem playerImage_placeholder_counterexample :
    fetchPlayerImage "42" (some ⟨[⟨"/img/base/ph/sil.png", "", ""⟩], []⟩) =
      "https://www.vlr.gg/img/base/ph/sil.png" := by decide

/-- C5 (amended): in both avatar/image lookups the strategies run in strict
priority order and the result is the URL-fixed first non-empty strategy
value, with empty meaning "field unknown", never an error; but only some
strategies skip the placeholder sentinel: in `fetch_player_image` strategies
2 and 3 skip it while strategy 1 (the first `.player-header img`) does not,
and in `fetch_team_roster`'s per-item image resolution only Try 3 skips it
while Tries 1, 2 and 4 pass it through (the last conjunct shows a roster
item whose first `<img>` holds the placeholder keeping it, origin-prefixed). -/
theorem playerImage_strategy_order :
    (∀ pid, fetchPlayerImage pid none = "") ∧
    (∀ d, fetchPlayerImage "" (some d) = "") ∧
    (∀ pid d, pid ≠ "" → fetchPlayerImage pid (some d) =
      fixImgUrl (if tryHeaderFirst d ≠ "" then tryHeaderFirst d
        else if tryHeaderSkip d ≠ "" then tryHeaderSkip d else tryPhotoSkip d)) ∧
    (∀ d, tryHeaderSkip d ≠ placeholder ∧ tryPhotoSkip d ≠ placeholder) ∧
    (∀ item nm, item.nameAlias = some nm → nm ≠ "" →
      ((itemPlayer item).getD default).img =
        fixRosterUrl (if rosterTryFirstImg item ≠ "" then rosterTryFirstImg item
          else if rosterTryLinkImg item ≠ "" then rosterTryLinkImg item
          else if rosterTrySkip item ≠ "" then rosterTrySkip item
          else rosterTryStyle item)) ∧
    (∀ item, rosterTrySkip item ≠ placeholder) ∧
    itemPlayer ⟨some "x", false, "", [⟨"/img/base/ph/sil.png", "", ""⟩], [], none⟩ =
      some ⟨"x", "https://www.vlr.gg/img/base/ph/sil.png", ""⟩ := by
  refine ⟨?_, ?_, ?_, ?_, ?_, ?_, by decide⟩
  · intro pid
    unfold fetchPlayerImage
    split_ifs <;> rfl
  · intro d; rfl
  · intro pid d h
    simp only [fetchPlayerImage, if_neg h]
  · intro d
    exact ⟨skip_strategy_ne_placeholder d.headerImgs,
           skip_strategy_ne_placeholder d.photoImgs⟩
  · intro item nm h hne
    simp only [itemPlayer, h]
    rw [if_neg hne]
    simp only [Option.getD_some]
    show fixRosterUrl _ = fixRosterUrl _
    congr 1
    by_cases h1 : rosterTryFirstImg item = ""
    · by_cases h2 : rosterTryLinkImg item = ""
      · by_cases h3 : rosterTrySkip item = ""
        · simp [h1, h2, h3]
        · simp [h1, h2, h3]
      · simp [h1, h2]
    · simp [h1]
  · intro item
    exact skip_strategy_ne_placeholder item.allImgs

/-- C5 witness: the priority chain applied at a concrete profile page and
at a concrete roster item. -/
theorem playerImage_strategy_order_witness :
    (fetchPlayerImage "7" (some ⟨[], [⟨"/p.png", "", ""⟩]⟩) =
      fixImgUrl (if tryHeaderFirst ⟨[], [⟨"/p.png", "", ""⟩]⟩ ≠ "" then
          tryHeaderFirst ⟨[], [⟨"/p.png", "", ""⟩]⟩
        else if tryHeaderSkip ⟨[], [⟨"/p.png", "", ""⟩]⟩ ≠ "" then
          tryHeaderSkip ⟨[], [⟨"/p.png", "", ""⟩]⟩
        else tryPhotoSkip ⟨[], [⟨"/p.png", "", ""⟩]⟩)) ∧
    ((itemPlayer ⟨some "a", false, "", [], [], some "//cdn/x.png"⟩).getD default).img =
      fixRosterUrl (if rosterTryFirstImg ⟨some "a", false, "", [], [], some "//cdn/x.png"⟩ ≠ "" then
          rosterTryFirstImg ⟨some "a", false, "", [], [], some "//cdn/x.png"⟩
        else if rosterTryLinkImg ⟨some "a", false, "", [], [], some "//cdn/x.png"⟩ ≠ "" then
          rosterTryLinkImg ⟨some "a", false, "", [], [], some "//cdn/x.png"⟩
        else if rosterTrySkip ⟨some "a", false, "", [], [], some "//cdn/x.png"⟩ ≠ "" then
          rosterTrySkip ⟨some "a", false, "", [], [], some "//cdn/x.png"⟩
        else rosterTryStyle ⟨some "a", false, "", [], [], some "//cdn/x.png"⟩) :=
  ⟨playerImage_strategy_order.2.2.1 "7" ⟨[], [⟨"/p.png", "", ""⟩]⟩ (by decide),
   playerImage_strategy_order.2.2.2.2.1 ⟨some "a", false, "", [], [], some "//cdn/x.png"⟩
     "a" rfl (by decide)⟩

/-- C8: a front-page item is classified live iff its `.match-item-eta`
indicator exists and its lowercased text contains `"live"`; an absent
indicator means not-live (no error); and every emitted live record has the
status constant `"LIVE"` and stems from a live item with exactly two team
refs. -/
theorem live_classification :
    (∀ item : FrontItem, isLive item = true ↔
      ∃ t, item.etaText = some t ∧ pyContains (pyLower t) "live" = true) ∧
    (∀ item : FrontItem, item.etaText = none → isLive item = false) ∧
    (∀ items out, getLiveMatches (some items) = .ok out →
      ∀ rec, rec ∈ out → rec.status = "LIVE" ∧
        ∃ item, item ∈ items ∧ isLive item = true ∧ buildLive item = some rec) := by
  refine ⟨?_, ?_, ?_⟩
  · intro item
    cases h : item.etaText with
    | none => simp [isLive, h]
    | some t => simp [isLive, h]
  · intro item h
    simp [isLive, h]
  · intro items out hout rec hrec
    have hlist : items.filterMap buildLive = out := by
      simpa [getLiveMatches] using hout
    subst hlist
    obtain ⟨item, hmem, hb⟩ := List.mem_filterMap.mp hrec
    by_cases hl : isLive item = true
    · refine ⟨?_, item, hmem, hl, hb⟩
      simp only [buildLive, hl, if_true] at hb
      split at hb
      · injection hb with hb
        rw [← hb]
      · exact absurd hb (by simp)
    · rw [buildLive, if_neg hl] at hb
      exact absurd hb (by simp)

/-- C8 witness: a concrete live front-page item. -/
theorem live_classification_witness :
    (⟨"457", ⟨"T1", "1"⟩, ⟨"T2", "0"⟩, "VCT", "LIVE"⟩ : LiveRec).status = "LIVE" ∧
    ∃ item, item ∈ [(⟨some "LIVE", "/x/457/y",
        [⟨some "T1", some "1"⟩, ⟨some "T2", some "0"⟩], some "VCT"⟩ : FrontItem)] ∧
      isLive item = true ∧ buildLive item =
        some ⟨"457", ⟨"T1", "1"⟩, ⟨"T2", "0"⟩, "VCT", "LIVE"⟩ :=
  live_classification.2.2
    [⟨some "LIVE", "/x/457/y", [⟨some "T1", some "1"⟩, ⟨some "T2", some "0"⟩], some "VCT"⟩]
    _ rfl _ (by decide)

theorem applyStatCell_unparsable (st : Stats) (key t : String)
    (h : unparsableCell t) : applyStatCell st key t = st := by
  simp [applyStatCell, h.1, h.2]

theorem statFold_unparsable_id (cells : List String) :
    ∀ (keys : List String) (st : Stats), (∀ t ∈ cells, unparsableCell t) →
      (cells.zip keys).foldl (fun s p => applyStatCell s p.2 p.1) st = st := by
  induction cells with
  | nil => intro keys st _; rfl
  | cons c cs ih =>
    intro keys st h
    cases keys with
    | nil => rfl
    | cons k ks =>
      rw [List.zip_cons_cons, List.foldl_cons,
        applyStatCell_unparsable st k c (h c (List.mem_cons_self c cs))]
      exact ih ks st (fun t ht => h t (List.mem_cons_of_mem _ ht))

theorem zip_append_drop (b : List String) :
    ∀ (a c : List String), (a ++ b).zip c = a.zip c ++ b.zip (c.drop a.length) := by
  intro a
  induction a with
  | nil => intro c; simp
  | cons x xs ih =>
    intro c
    cases c with
    | nil => simp
    | cons y ys => simp [ih ys]

/-- C3: a player row is dropped exactly when the `.text-of` name element is
missing; with a name present the row is always emitted; missing trailing
stat cells and unparsable stat cells leave the affected fields at their
zero defaults; and a dropped row never removes its neighbours from the
collected player list. -/
theorem playerRow_error_handling :
    (∀ row teams ti, parsePlayerRow row teams ti = none ↔ row.nameText = none) ∧
    (∀ row teams ti nm, row.nameText = some nm →
      ∃ p, parsePlayerRow row teams ti = some p ∧ p.name = nm ∧
        p.stats = parseStats row.statCells) ∧
    (∀ cells extra, (∀ t ∈ extra, unparsableCell t) →
      parseStats (cells ++ extra) = parseStats cells) ∧
    (∀ cells, (∀ t ∈ cells, unparsableCell t) → parseStats cells = defaultStats) ∧
    (∀ rows1 rows2 bad teams ti, parsePlayerRow bad teams ti = none →
      (rows1 ++ bad :: rows2).filterMap (fun r => parsePlayerRow r teams ti) =
        (rows1 ++ rows2).filterMap (fun r => parsePlayerRow r teams ti)) := by
  refine ⟨?_, ?_, ?_, ?_, ?_⟩
  · intro row teams ti
    cases h : row.nameText with
    | none => simp [parsePlayerRow, h]
    | some nm => simp [parsePlayerRow, h]
  · intro row teams ti nm h
    simp only [parsePlayerRow, h]
    exact ⟨_, rfl, rfl, rfl⟩
  · intro cells extra h
    unfold parseStats
    rw [zip_append_drop, List.foldl_append]
    exact statFold_unparsable_id extra _ _ h
  · intro cells h
    exact statFold_unparsable_id cells statKeys defaultStats h
  · intro rows1 rows2 bad teams ti hbad
    simp [List.filterMap_append, List.filterMap_cons, hbad]

/-- C3 witness: a row with a name but no stat cells is kept, all-zero. -/
theorem playerRow_error_handling_witness :
    ∃ p, parsePlayerRow ⟨some "Zed", false, "", none, [], []⟩ [] 0 = some p ∧
      p.name = "Zed" ∧ p.stats = parseStats ([] : List String) :=
  playerRow_error_handling.2.1 ⟨some "Zed", false, "", none, [], []⟩ [] 0 "Zed" rfl

/-- C7 counterexample: the stat text `"12.5"` in the ACS column is stored as
the integer `12`, although it has a decimal point (the claim says a text
with a decimal point yields a float); and the unicode-minus text `"−3"` in
the kills column is stored as `0`, not as a number with the minus variant
stripped (the claim says the unicode minus variant is stripped before
parsing). -/
theorem statParsing_counterexample :
    (parseStats ["0", "12.5", "−3"]).acs = 12 ∧
    (parseStats ["0", "12.5", "−3"]).kills = 0 := by
  constructor
  · simp only [parseStats, statKeys, List.zip_cons_cons, List.foldl_cons,
      List.zip_nil_left, List.foldl_nil]
    simp [applyStatCell, setIntField, pyStrip, removeChar, pythonFloat,
      parseUnsignedDecimal, splitDot, digitsToNat, truncQ, defaultStats]
    norm_num
  · simp only [parseStats, statKeys, List.zip_cons_cons, List.foldl_cons,
      List.zip_nil_left, List.foldl_nil]
    simp [applyStatCell, setIntField, pyStrip, removeChar, pythonFloat,
      parseUnsignedDecimal, splitDot, digitsToNat, truncQ, defaultStats]

/-- C7 (amended): the numeric stat parser strips only `%` (a leading ASCII
`+` is accepted by the float conversion itself, while the unicode minus
variant `−` makes the conversion fail); whether an integer or a float is
stored is decided by the stat key — `rating` keeps the float, every other
key truncates it to an integer regardless of any decimal point; and any
parse failure leaves the zero default, never raising. -/
theorem statParsing_amended :
    (∀ key t, unparsableCell t → applyStatCell defaultStats key t = defaultStats) ∧
    (∀ t q, pythonFloat t = some q → removeChar '%' t = t → pyStrip t = t →
      t ≠ "" →
      applyStatCell defaultStats "rating" t = { defaultStats with rating := q } ∧
      applyStatCell defaultStats "acs" t = { defaultStats with acs := truncQ q }) ∧
    applyStatCell defaultStats "kast" "75%" = { defaultStats with kast := 75 } ∧
    pythonFloat "+5" = some 5 ∧ pythonFloat "−3" = none := by
  refine ⟨?_, ?_, ?_, by decide, by decide⟩
  · intro key t h
    exact applyStatCell_unparsable defaultStats key t h
  · intro t q hq hrep hstrip hne
    constructor
    · simp [applyStatCell, hrep, hstrip, hne, hq]
    · simp [applyStatCell, setIntField, hrep, hstrip, hne, hq]
  · simp [applyStatCell, setIntField, pyStrip, removeChar, pythonFloat,
      parseUnsignedDecimal, splitDot, digitsToNat, truncQ]

/-- C7 witness: a plain digit string parses into both fields. -/
theorem statParsing_amended_witness :
    applyStatCell defaultStats "rating" "7" = { defaultStats with rating := 7 } ∧
    applyStatCell defaultStats "acs" "7" = { defaultStats with acs := truncQ 7 } :=
  statParsing_amended.2.1 "7" 7 (by decide) (by decide) (by decide) (by decide)

/-- C1 counterexample: a map block named `"TBD"` is neither removed from the
maps list nor excluded from `map_count` — the source has no `"tbd"` filter
at all, so the response for `tbdDoc` lists the `"TBD"` map and counts it. -/
theorem mapCount_tbd_counterexample :
    getMatch (.ok tbdDoc) (fun _ => []) = .ok
      { teams := [⟨"A", "0", "", ""⟩, ⟨"B", "0", "", ""⟩]
        event := ⟨"", "", "", none, none⟩
        map_count := 1
        maps := [⟨"TBD", [], []⟩]
        is_upcoming := false } := rfl

/-- C1 (amended): `"All Maps"` entries are excluded from `map_count` but
still appear in the maps list; the only names excluded from `map_count` are
`"All Maps"` and the synthetic `"Roster"` placeholder — a map whose
lowercase name is `"tbd"` is NOT excluded: it appears in the maps list
(one entry per map block, names normalised by `mapNameOf`) and counts
toward `map_count`. -/
theorem mapCount_amended :
    ∀ doc rfetch r, getMatch (.ok doc) rfetch = .ok r →
      r.map_count = (r.maps.filter
        (fun m => !(m.map == "All Maps") && !(m.map == "Roster"))).length ∧
      (doc.mapContainers ≠ [] →
        r.maps.map (fun m => m.map) = doc.mapContainers.map mapNameOf) := by
  intro doc rfetch r h
  unfold getMatch at h
  dsimp only at h
  split at h
  · exact absurd h (by simp)
  · have hr := Except.ok.inj h
    subst hr
    refine ⟨rfl, ?_⟩
    intro hne
    have hemp : doc.mapContainers.isEmpty = false := by
      simpa [List.isEmpty_iff] using hne
    simp [hemp, buildMap, List.map_map, Function.comp]

/-- C1 witness: a document with one ordinary completed map. -/
theorem mapCount_amended_witness :
    (1 : Nat) = ((([⟨"Ascent", [], []⟩] : List MapOut)).filter
      (fun m => !(m.map == "All Maps") && !(m.map == "Roster"))).length ∧
    ((⟨[], [], [], [], none, [⟨some "Ascent", [], []⟩], []⟩ : MatchDoc).mapContainers ≠ [] →
      ([⟨"Ascent", [], []⟩] : List MapOut).map (fun m => m.map) =
        (⟨[], [], [], [], none, [⟨some "Ascent", [], []⟩], []⟩ : MatchDoc).mapContainers.map mapNameOf) :=
  mapCount_amended ⟨[], [], [], [], none, [⟨some "Ascent", [], []⟩], []⟩ (fun _ => [])
    ⟨[], ⟨"", "", "", none, none⟩, 1, [⟨"Ascent", [], []⟩], false⟩ rfl

/-- C2: evaluation at the failing input — when the fetched page contains a
`.match-header-event` element with no child `div`s, line 90's unguarded
`event_el.select_one("div:nth-child(1)").get_text(strip=True)` raises
`AttributeError`, so a successfully fetched document still escalates a
hard (runtime) error, contradicting the claim that a `MalformedFragment`
is always absorbed locally and extraction never raises. -/
theorem getMatch_event_crash :
    getMatch (.ok badEventDoc) (fun _ => []) = .error .runtime := rfl

/-- C4 counterexample: with one inline roster-preview node, method (a)
yields player `p1` (for team 1), yet the final record also contains `q1`,
which only the secondary roster fetch of team 2 (method (b)) can supply —
the extractor merged partial results from both methods, although the claim
says method (b) runs only when method (a) yields nothing and results are
never merged. -/
theorem upcoming_fallback_merge_counterexample :
    getMatch (.ok mergeDoc) mergeFetch = .ok
      { teams := [⟨"Alpha", "0", "", "1"⟩, ⟨"Beta", "0", "", "2"⟩]
        event := ⟨"", "", "", none, none⟩
        map_count := 0
        maps := [⟨"Roster", [⟨"Alpha", "0"⟩, ⟨"Beta", "0"⟩],
          [⟨"", "p1", "Alpha", [], "", defaultStats⟩,
           ⟨"", "q1", "Beta", [], "", defaultStats⟩]⟩]
        is_upcoming := true } := rfl

/-- C4 (amended): the upcoming-match fallback operates per team — for each
team independently, the inline roster-preview result is used when it is
non-empty (and the roster fetcher is then never consulted for that team),
and that team's roster page is fetched exactly when the inline method
yielded no players for it and a team id is available; hence the two teams'
rosters, though each produced by a single method, may come from different
methods. -/
theorem upcoming_fallback_per_team :
    ∀ doc f g,
      ((splitVs doc.vsPlayers).1 ≠ [] →
        (upcomingRosters doc f).1 = (splitVs doc.vsPlayers).1 ∧
        (upcomingRosters doc f).1 = (upcomingRosters doc g).1) ∧
      ((splitVs doc.vsPlayers).1 = [] → 1 ≤ (teamIds doc).length →
        (teamIds doc).getD 0 "" ≠ "" →
        (upcomingRosters doc f).1 = f ((teamIds doc).getD 0 "")) ∧
      ((splitVs doc.vsPlayers).2 ≠ [] →
        (upcomingRosters doc f).2 = (splitVs doc.vsPlayers).2 ∧
        (upcomingRosters doc f).2 = (upcomingRosters doc g).2) ∧
      ((splitVs doc.vsPlayers).2 = [] → 2 ≤ (teamIds doc).length →
        (teamIds doc).getD 1 "" ≠ "" →
        (upcomingRosters doc f).2 = f ((teamIds doc).getD 1 "")) := by
  intro doc f g
  refine ⟨?_, ?_, ?_, ?_⟩
  · intro h
    have hng : ¬((splitVs doc.vsPlayers).1 = [] ∧ 1 ≤ (teamIds doc).length ∧
        (teamIds doc).getD 0 "" ≠ "") := fun hc => h hc.1
    constructor
    · simp only [upcomingRosters]
      rw [if_neg hng]
    · simp only [upcomingRosters]
      rw [if_neg hng, if_neg hng]
  · intro h1 h2 h3
    simp only [upcomingRosters]
    rw [if_pos ⟨h1, h2, h3⟩]
  · intro h
    have hng : ¬((splitVs doc.vsPlayers).2 = [] ∧ 2 ≤ (teamIds doc).length ∧
        (teamIds doc).getD 1 "" ≠ "") := fun hc => h hc.1
    constructor
    · simp only [upcomingRosters]
      rw [if_neg hng]
    · simp only [upcomingRosters]
      rw [if_neg hng, if_neg hng]
  · intro h1 h2 h3
    simp only [upcomingRosters]
    rw [if_pos ⟨h1, h2, h3⟩]

/-- C4 witness: an upcoming match with no inline nodes fetches team 1's
roster page. -/
theorem upcoming_fallback_per_team_witness :
    (upcomingRosters ⟨[], [], [], ["/team/9/x"], none, [], []⟩
      (fun _ => [⟨"w", "", ""⟩])).1 =
      (fun _ => [⟨"w", "", ""⟩]) ((teamIds ⟨[], [], [], ["/team/9/x"], none, [], []⟩).getD 0 "") :=
  (upcoming_fallback_per_team ⟨[], [], [], ["/team/9/x"], none, [], []⟩
    (fun _ => [⟨"w", "", ""⟩]) (fun _ => [])).2.1 (by decide) (by decide) (by decide)

theorem updImg_length (v : String) :
    ∀ (ps : List RosterPlayer) (i : Nat), (updImg ps i v).length = ps.length := by
  intro ps
  induction ps with
  | nil => intro i; rfl
  | cons p tl ih =>
    intro i
    cases i with
    | zero => rfl
    | succ n => simp [updImg, ih n]

theorem updImg_ge (v : String) :
    ∀ (ps : List RosterPlayer) (i : Nat), ps.length ≤ i → updImg ps i v = ps := by
  intro ps
  induction ps with
  | nil => intro i _; rfl
  | cons p tl ih =>
    intro i h
    cases i with
    | zero => simp at h
    | succ n =>
      simp only [updImg]
      rw [ih n (by simpa using h)]

theorem updImg_getD_ne (v : String) (d : RosterPlayer) :
    ∀ (ps : List RosterPlayer) (i j : Nat), j ≠ i →
      (updImg ps i v).getD j d = ps.getD j d := by
  intro ps
  induction ps with
  | nil => intro i j _; rfl
  | cons p tl ih =>
    intro i j h
    cases i with
    | zero =>
      cases j with
      | zero => exact absurd rfl h
      | succ m => rfl
    | succ n =>
      cases j with
      | zero => rfl
      | succ m =>
        simp only [updImg, List.getD_cons_succ]
        exact ih n m (fun hc => h (by rw [hc]))

theorem updImg_getD_eq (v : String) (d : RosterPlayer) :
    ∀ (ps : List RosterPlayer) (i : Nat), i < ps.length →
      (updImg ps i v).getD i d = { ps.getD i d with img := v } := by
  intro ps
  induction ps with
  | nil => intro i h; simp at h
  | cons p tl ih =>
    intro i h
    cases i with
    | zero => rfl
    | succ n =>
      simp only [updImg, List.getD_cons_succ]
      exact ih n (by simpa using h)

theorem applyResult_length (acc : List RosterPlayer) (i : Nat)
    (res : Except Unit String) : (applyResult acc i res).length = acc.length := by
  cases res with
  | ok r =>
    by_cases h : r ≠ "" <;> simp [applyResult, h, updImg_length]
  | error e => rfl

theorem applyResult_getD_ne (acc : List RosterPlayer) (i j : Nat)
    (res : Except Unit String) (d : RosterPlayer) (h : j ≠ i) :
    (applyResult acc i res).getD j d = acc.getD j d := by
  cases res with
  | ok r =>
    show (if r ≠ "" then updImg acc i r else acc).getD j d = acc.getD j d
    by_cases hr : r ≠ ""
    · rw [if_pos hr, updImg_getD_ne r d acc i j h]
    · rw [if_neg hr]
  | error e => rfl

theorem applyResult_getD_eq (acc : List RosterPlayer) (i : Nat)
    (res : Except Unit String) (d : RosterPlayer) (h : i < acc.length) :
    (applyResult acc i res).getD i d = applySlot (acc.getD i d) res := by
  cases res with
  | ok r =>
    show (if r ≠ "" then updImg acc i r else acc).getD i d =
      (if r ≠ "" then { acc.getD i d with img := r } else acc.getD i d)
    by_cases hr : r ≠ ""
    · rw [if_pos hr, if_pos hr, updImg_getD_eq r d acc i h]
    · rw [if_neg hr, if_neg hr]
  | error e => rfl

theorem applyResult_ge (acc : List RosterPlayer) (i : Nat)
    (res : Except Unit String) (h : acc.length ≤ i) :
    applyResult acc i res = acc := by
  cases res with
  | ok r =>
    by_cases hr : r ≠ "" <;> simp [applyResult, hr, updImg_ge r acc i h]
  | error e => rfl

theorem foldResults_length (res : Nat → Except Unit String) :
    ∀ (ixs : List Nat) (acc : List RosterPlayer),
      (foldResults res ixs acc).length = acc.length := by
  intro ixs
  induction ixs with
  | nil => intro acc; rfl
  | cons i tl ih =>
    intro acc
    rw [foldResults, List.foldl_cons, ← foldResults, ih, applyResult_length]

theorem foldResults_getD (res : Nat → Except Unit String) (d : RosterPlayer) :
    ∀ (ixs : List Nat) (acc : List RosterPlayer) (j : Nat), ixs.Nodup →
      (foldResults res ixs acc).getD j d =
        (if j ∈ ixs ∧ j < acc.length then applySlot (acc.getD j d) (res j)
         else acc.getD j d) := by
  intro ixs
  induction ixs with
  | nil =>
    intro acc j _
    simp [foldResults]
  | cons i tl ih =>
    intro acc j hnd
    obtain ⟨hitl, hndtl⟩ := List.nodup_cons.mp hnd
    rw [foldResults, List.foldl_cons, ← foldResults,
      ih (applyResult acc i (res i)) j hndtl, applyResult_length]
    by_cases hj : j ∈ tl
    · have hji : j ≠ i := fun hc => hitl (hc ▸ hj)
      rw [applyResult_getD_ne acc i j (res i) d hji]
      by_cases hlt : j < acc.length
      · rw [if_pos ⟨hj, hlt⟩, if_pos ⟨List.mem_cons_of_mem _ hj, hlt⟩]
      · rw [if_neg (fun hc => hlt hc.2), if_neg (fun hc => hlt hc.2)]
    · rw [if_neg (fun hc => hj hc.1)]
      by_cases hji : j = i
      · subst hji
        by_cases hlt : j < acc.length
        · rw [applyResult_getD_eq acc j (res j) d hlt,
            if_pos ⟨List.mem_cons_self _ _, hlt⟩]
        · rw [applyResult_ge acc j (res j) (Nat.le_of_not_lt hlt),
            if_neg (fun hc => hlt hc.2)]
      · rw [applyResult_getD_ne acc i j (res i) d hji,
          if_neg (fun hc => (List.mem_cons.mp hc.1).elim hji hj)]

theorem taskIndices_nodup (ps : List RosterPlayer) : (taskIndices ps).Nodup :=
  (List.nodup_range _).filter _

theorem mem_taskIndices (ps : List RosterPlayer) (j : Nat) :
    j ∈ taskIndices ps ↔ j < ps.length ∧ (ps.getD j default).img = "" ∧
      (ps.getD j default).id ≠ "" := by
  simp [taskIndices, List.mem_filter, List.mem_range, and_assoc]

/-- C6: at most five secondary avatar fetches are scheduled per roster (one
per considered roster slot), the batch always completes into a full roster
list of the same length, and each slot's final value depends only on its own
first-pass entry and its own fetch outcome — a failed or empty fetch leaves
exactly its own slot without an avatar and never disturbs sibling slots or
the success of the parent extraction. -/
theorem roster_enrichment_cap_and_independence :
    ∀ (items : List RosterItem) (fetcher : String → Except Unit String),
      (taskIndices (firstPass items)).length ≤ 5 ∧
      (fetchTeamRoster (some items) fetcher).length = (firstPass items).length ∧
      ∀ j, (fetchTeamRoster (some items) fetcher).getD j default =
        (if j < (firstPass items).length ∧
            ((firstPass items).getD j default).img = "" ∧
            ((firstPass items).getD j default).id ≠ "" then
          applySlot ((firstPass items).getD j default)
            (fetcher (((firstPass items).getD j default).id))
         else (firstPass items).getD j default) := by
  intro items fetcher
  have hfold : fetchTeamRoster (some items) fetcher =
      foldResults (fun i => fetcher (((firstPass items).getD i default).id))
        (taskIndices (firstPass items)) (firstPass items) := rfl
  refine ⟨?_, ?_, ?_⟩
  · calc (taskIndices (firstPass items)).length
        ≤ (List.range (firstPass items).length).length :=
          List.length_filter_le _ _
      _ = (firstPass items).length := List.length_range _
      _ ≤ (items.take 5).length := List.length_filterMap_le _ _
      _ ≤ 5 := by
          rw [List.length_take]
          exact Nat.min_le_left _ _
  · rw [hfold]
    exact foldResults_length _ _ _
  · intro j
    rw [hfold, foldResults_getD _ default _ _ j (taskIndices_nodup _)]
    by_cases hc : j < (firstPass items).length ∧
        ((firstPass items).getD j default).img = "" ∧
        ((firstPass items).getD j default).id ≠ ""
    · rw [if_pos ⟨(mem_taskIndices _ _).mpr hc, hc.1⟩, if_pos hc]
    · rw [if_neg (fun hx => hc ((mem_taskIndices _ _).mp hx.1)), if_neg hc]

theorem updImg_comm (v w : String) :
    ∀ (z : List RosterPlayer) (x y : Nat), x ≠ y →
      updImg (updImg z x v) y w = updImg (updImg z y w) x v := by
  intro z
  induction z with
  | nil => intro x y _; rfl
  | cons p tl ih =>
    intro x y h
    cases x with
    | zero =>
      cases y with
      | zero => exact absurd rfl h
      | succ m => rfl
    | succ n =>
      cases y with
      | zero => rfl
      | succ m =>
        simp only [updImg, List.cons.injEq, true_and]
        exact ih n m (fun hc => h (by rw [hc]))

theorem applyResult_comm (x y : Nat) (rx ry : Except Unit String)
    (hxy : x ≠ y) (z : List RosterPlayer) :
    applyResult (applyResult z x rx) y ry = applyResult (applyResult z y ry) x rx := by
  cases rx with
  | error e =>
    cases ry with
    | error e2 => rfl
    | ok r => rfl
  | ok r =>
    cases ry with
    | error e2 => rfl
    | ok r2 =>
      by_cases h1 : r ≠ "" <;> by_cases h2 : r2 ≠ "" <;>
        simp [applyResult, h1, h2]
      exact updImg_comm r r2 z x y hxy

/-- C9: the enrichment fan-out/fan-in is deterministic in its inputs despite
concurrent scheduling — applying the write-backs of identical fetch results
in ANY order that is a permutation of the scheduled task list yields exactly
the record list produced by `fetch_team_roster`; in particular two runs over
the same roster with a fetcher returning identical results produce identical
final records. -/
theorem enrichment_schedule_invariance :
    ∀ (items : List RosterItem) (fetcher : String → Except Unit String)
      (order : List Nat),
      order.Perm (taskIndices (firstPass items)) →
      enrichWith (firstPass items) fetcher order =
        fetchTeamRoster (some items) fetcher := by
  intro items fetcher order hperm
  show enrichWith _ _ order = enrichWith (firstPass items) fetcher (taskIndices (firstPass items))
  unfold enrichWith
  refine hperm.foldl_eq' ?_ _
  intro x _ y _ z
  by_cases hxy : x = y
  · subst hxy; rfl
  · exact applyResult_comm x y _ _ hxy z

/-- C9 witness: a reversed completion-order schedule yields the same roster
as the canonical task order. -/
theorem enrichment_schedule_invariance_witness :
    enrichWith (firstPass twoItems) (fun pid => .ok ("u" ++ pid)) [1, 0] =
      fetchTeamRoster (some twoItems) (fun pid => .ok ("u" ++ pid)) :=
  enrichment_schedule_invariance twoItems (fun pid => .ok ("u" ++ pid)) [1, 0]
    (by decide)

end VLR
